import Mathlib

/-!
Verification of the RSN recovery-engine core against its specification.

The development shallowly embeds the C++ sources:

* `src/io/device_io.cpp` / `device_io.h` — the `DeviceIO` block-device layer
  (open/close lifecycle, `ReadBlock`, `ReadBlockVector`, filesystem detection);
* `src/io/device_io_adapter.cpp` — the `DeviceIOAdapter` routing layer and its
  recovery statistics;
* `src/parsers/ext4_parser.cpp`, `ntfs_parser.cpp`, `apfs_parser.cpp` — the
  parser classes, whose bodies in this revision are explicit stubs ("STUB ...
  TODO Implementation") that ignore the device contents.

Machine integers are modelled as `Nat` with explicit reduction modulo `2 ^ 64`
(`uint64_t`) or `2 ^ 32` (`uint32_t`) exactly where the C++ arithmetic wraps.
Device contents are byte lists (`List Nat`, each byte read reduced mod 256).
C++ exceptions (`DeviceIOException`) are modelled with `Except`, one error
constructor per `throw` site.
-/

namespace RSN

/-- Modulus of `uint64_t` arithmetic. -/
def U64MOD : Nat := 18446744073709551616

/-- Modulus of `uint32_t` arithmetic. -/
def U32MOD : Nat := 4294967296

/-- Byte `i` of a byte buffer; out-of-range reads default to 0 and every value
is reduced mod 256, mirroring `uint8_t` storage. -/
def byteAt (l : List Nat) (i : Nat) : Nat := l.getD i 0 % 256

/-- Little-endian 16-bit load, as in `*(uint16_t *)(&buf[i])` on the
little-endian targets the code runs on. -/
def u16LE (l : List Nat) (i : Nat) : Nat := byteAt l i + 256 * byteAt l (i + 1)

/-- Little-endian 32-bit load, as in `*(uint32_t *)(&buf[i])`. -/
def u32LE (l : List Nat) (i : Nat) : Nat :=
  byteAt l i + 256 * byteAt l (i + 1) + 65536 * byteAt l (i + 2) +
    16777216 * byteAt l (i + 3)

/-- The `enum class FilesystemType` from `device_io.h`. -/
inductive FilesystemType where
  | UNKNOWN
  | NTFS
  | APFS
  | EXT4
  | FAT32
  | HFS_PLUS
deriving DecidableEq, Repr

/-- The `DeviceIOException` throw sites of `device_io.cpp`, one constructor per
distinct message.  The "Device file descriptor invalid" / "Device handle
invalid" throw at the top of `ReadImpl` has no constructor: it is unreachable
here because the open-state guard precedes every `ReadImpl` call and the
descriptor is valid exactly while open. -/
inductive DeviceIOError where
  | openFailed        -- "Failed to open device: <path>"
  | deviceNotOpen     -- "Device not open"
  | bufferNull        -- "Buffer pointer is null"
  | readBeyondDevice  -- "Read offset beyond device size"
  | seekFailed        -- "Failed to seek to offset"
  | readFailed        -- "Failed to read from device"
deriving DecidableEq, Repr

/-- The mutable state of a `DeviceIO` object: `is_open_`, `current_device_path_`,
the bytes behind the platform handle, and `detected_fs_`.  The cached
`device_size_` field always equals `content.length` while open (it is set from
`GetSizeImpl()` in `Open` and the device is never written), so it is exposed as
the derived `deviceSize` below rather than duplicated. -/
structure DeviceIOState where
  isOpen : Bool
  currentDevicePath : String
  content : List Nat
  detectedFs : FilesystemType
deriving DecidableEq, Repr

/-- The `device_size_` field, as `GetDeviceSize()` reports it. -/
def DeviceIOState.deviceSize (st : DeviceIOState) : Nat := st.content.length

/-- The guard clauses of `DeviceIO::ReadBlock` (device_io.cpp:84-95).  The
bounds check `offset + size > device_size_` is `uint64_t` arithmetic, so the
sum wraps modulo `2 ^ 64` before the comparison.  The null-buffer check has no
counterpart here (Lean buffers cannot be null). -/
def readBlockGuard (st : DeviceIOState) (offset size : Nat) :
    Option DeviceIOError :=
  if st.isOpen = false then some .deviceNotOpen
  else if (offset + size) % U64MOD > st.deviceSize then some .readBeyondDevice
  else none

/-- The first `uint64_t` offset whose conversion to the signed seek argument
(`off_t` on the POSIX path, `LARGE_INTEGER.QuadPart` on Windows) is negative:
`2 ^ 63`.  `lseek` / `SetFilePointerEx` fail for such offsets. -/
def OFFT_SIGN : Nat := 9223372036854775808

/-- The bytes a *successful* platform `read` call delivers when it returns
`ret` bytes: a prefix of the at most `size` bytes available from `offset`
(POSIX semantics; a successful read past end-of-device returns 0 bytes).
The complete-read case is `ret = size`. -/
def readImplBytes (content : List Nat) (offset size ret : Nat) : List Nat :=
  ((content.drop offset).take size).take ret

/-- Model of `DeviceIO::ReadImpl` (device_io.cpp:271-288) with the platform
`read` returning `ret` bytes.  `lseek(fd, offset, SEEK_SET)` receives the
`uint64_t` offset through a signed `off_t`, so every offset at or above
`2 ^ 63` is negative there, `lseek` fails and ReadImpl throws "Failed to seek
to offset" (the Windows `SetFilePointerEx` path fails the same way); for
representable offsets the seek succeeds, also past end-of-device, and `read`
delivers `readImplBytes`.  A hardware read error ("Failed to read from
device", `readFailed`) is not produced: the medium is assumed error-free. -/
def readImplWith (content : List Nat) (offset size ret : Nat) :
    Except DeviceIOError (List Nat) :=
  if OFFT_SIGN ≤ offset then .error .seekFailed
  else .ok (readImplBytes content offset size ret)

/-- Model of `DeviceIO::ReadBlock` with the platform returning `ret` bytes:
after the guards it returns `ReadImpl`'s byte count unchanged, and lets
`ReadImpl`'s exceptions propagate (device_io.cpp:97).  No comparison of the
count against `size` is performed. -/
def readBlockWith (st : DeviceIOState) (offset size ret : Nat) :
    Except DeviceIOError Nat :=
  match readBlockGuard st offset size with
  | some e => .error e
  | none =>
      match readImplWith st.content offset size ret with
      | .error e => .error e
      | .ok bytes => .ok bytes.length

/-- Model of `DeviceIO::ReadBlock` when the platform read is complete. -/
def readBlock (st : DeviceIOState) (offset size : Nat) :
    Except DeviceIOError Nat :=
  readBlockWith st offset size size

/-- Model of `DeviceIO::ReadBlockVector` with the platform returning `ret` bytes: it
allocates `size` bytes, calls `ReadBlock`, and resizes the buffer down to the
returned count (device_io.cpp:100-105). -/
def readBlockVectorWith (st : DeviceIOState) (offset size ret : Nat) :
    Except DeviceIOError (List Nat) :=
  match readBlockGuard st offset size with
  | some e => .error e
  | none =>
      match readImplWith st.content offset size ret with
      | .error e => .error e
      | .ok bytes => .ok bytes

/-- Model of `DeviceIO::ReadBlockVector` when the platform read is complete. -/
def readBlockVector (st : DeviceIOState) (offset size : Nat) :
    Except DeviceIOError (List Nat) :=
  readBlockVectorWith st offset size size

/-- The 8-byte signature comparison of `DetectNTFS` (device_io.cpp:337-338):
`memcmp(&boot_sector[3], "NTFS    ", 8) == 0`. -/
def ntfsSignature (bs : List Nat) : Bool :=
  byteAt bs 3 == 0x4E && byteAt bs 4 == 0x54 && byteAt bs 5 == 0x46 &&
  byteAt bs 6 == 0x53 && byteAt bs 7 == 0x20 && byteAt bs 8 == 0x20 &&
  byteAt bs 9 == 0x20 && byteAt bs 10 == 0x20

/-- Body of the `try` block of `DeviceIO::DetectNTFS` (device_io.cpp:324-342). -/
def detectNTFSBody (st : DeviceIOState) : Except DeviceIOError Bool :=
  match readBlockVector st 0 512 with
  | .error e => .error e
  | .ok boot_sector =>
      if boot_sector.length < 512 then .ok false
      else .ok (ntfsSignature boot_sector)

/-- Model of `DeviceIO::DetectNTFS`: the `catch (...)` clause maps any exception to
`false`. -/
def detectNTFS (st : DeviceIOState) : Bool :=
  match detectNTFSBody st with
  | .error _ => false
  | .ok b => b

/-- Body of the `try` block of `DeviceIO::DetectEXT4` (device_io.cpp:344-362):
read 256 bytes at offset 1024 and compare the 16-bit magic at offset 56 with
0xEF53. -/
def detectEXT4Body (st : DeviceIOState) : Except DeviceIOError Bool :=
  match readBlockVector st 1024 256 with
  | .error e => .error e
  | .ok superblock =>
      if superblock.length < 120 then .ok false
      else .ok (u16LE superblock 56 == 0xEF53)

/-- Model of `DeviceIO::DetectEXT4` with its `catch (...)`. -/
def detectEXT4 (st : DeviceIOState) : Bool :=
  match detectEXT4Body st with
  | .error _ => false
  | .ok b => b

/-- Body of the `try` block of `DeviceIO::DetectAPFS` (device_io.cpp:364-382):
read 64 bytes at offset 0 and compare the 32-bit magic with "NXSB"
(0x4253584E) or "APSB" (0x42535041). -/
def detectAPFSBody (st : DeviceIOState) : Except DeviceIOError Bool :=
  match readBlockVector st 0 64 with
  | .error e => .error e
  | .ok header =>
      if header.length < 4 then .ok false
      else .ok (u32LE header 0 == 0x4253584E || u32LE header 0 == 0x42535041)

/-- Model of `DeviceIO::DetectAPFS` with its `catch (...)`. -/
def detectAPFS (st : DeviceIOState) : Bool :=
  match detectAPFSBody st with
  | .error _ => false
  | .ok b => b

/-- Body of the `try` block of `DeviceIO::DetectFAT32` (device_io.cpp:384-408). -/
def detectFAT32Body (st : DeviceIOState) : Except DeviceIOError Bool :=
  match readBlockVector st 0 512 with
  | .error e => .error e
  | .ok boot_sector =>
      if boot_sector.length < 512 then .ok false
      else if u16LE boot_sector 510 != 0xAA55 then .ok false
      else .ok (byteAt boot_sector 0 == 0xEB || byteAt boot_sector 0 == 0xE9)

/-- Model of `DeviceIO::DetectFAT32` with its `catch (...)`. -/
def detectFAT32 (st : DeviceIOState) : Bool :=
  match detectFAT32Body st with
  | .error _ => false
  | .ok b => b

/-- Body of the `try` block of `DeviceIO::DetectHFSPlus` (device_io.cpp:410-428). -/
def detectHFSPlusBody (st : DeviceIOState) : Except DeviceIOError Bool :=
  match readBlockVector st 1024 512 with
  | .error e => .error e
  | .ok header =>
      if header.length < 2 then .ok false
      else .ok (u16LE header 0 == 0x482B || u16LE header 0 == 0x4858)

/-- Model of `DeviceIO::DetectHFSPlus` with its `catch (...)`. -/
def detectHFSPlus (st : DeviceIOState) : Bool :=
  match detectHFSPlusBody st with
  | .error _ => false
  | .ok b => b

/-- Model of `DeviceIO::DetectFilesystem` (device_io.cpp:107-134): the probes run in the
fixed order NTFS, EXT4, APFS, FAT32, HFS+, first match wins, otherwise
`UNKNOWN`. -/
def detectFilesystem (st : DeviceIOState) : FilesystemType :=
  if detectNTFS st then .NTFS
  else if detectEXT4 st then .EXT4
  else if detectAPFS st then .APFS
  else if detectFAT32 st then .FAT32
  else if detectHFSPlus st then .HFS_PLUS
  else .UNKNOWN

/-- Model of `DeviceIO::Close` (device_io.cpp:74-82): a no-op returning `true` when not
open, otherwise the platform close (modelled as succeeding) and
`is_open_ = false`.  The other fields are left as they are, as in the source. -/
def deviceClose (st : DeviceIOState) : DeviceIOState × Bool :=
  if st.isOpen = false then (st, true)
  else ({ st with isOpen := false }, true)

/-- Model of `DeviceIO::Open` (device_io.cpp:55-72).  An environment maps paths to the
byte contents `OpenImpl` would expose, `none` meaning `OpenImpl` fails.  An
already-open handle is first closed; on `OpenImpl` failure the exception
"Failed to open device" is thrown with the handle left closed; on success the
path, size and `is_open_` are set and `DetectFilesystem` runs on the newly
opened device before `true` is returned. -/
def deviceOpen (env : String → Option (List Nat)) (st : DeviceIOState)
    (path : String) : DeviceIOState × Except DeviceIOError Bool :=
  let st0 := if st.isOpen then (deviceClose st).1 else st
  match env path with
  | none => (st0, .error .openFailed)
  | some bytes =>
      let st1 : DeviceIOState :=
        { st0 with isOpen := true, currentDevicePath := path, content := bytes }
      ({ st1 with detectedFs := detectFilesystem st1 }, .ok true)

/-- Model of `std::string::find(needle) != npos`, the substring test used by the parser
mock device checks. -/
def strContains (hay needle : String) : Bool :=
  decide (List.IsInfix needle.toList hay.toList)

/-- The `FileEntry` record as the parser implementations and their tests
populate it (fields `filename`, `file_size`, `creation_time`,
`modification_time`, `is_directory`, `is_deleted`). -/
structure FileEntry where
  filename : String
  file_size : Nat
  creation_time : Nat
  modification_time : Nat
  is_directory : Bool
  is_deleted : Bool
deriving DecidableEq, Repr

/-- The `last_deleted_files_` recomputation of `DeviceIOAdapter::ParseDevice`
(device_io_adapter.cpp): count of entries with `is_deleted` set. -/
def countDeleted (entries : List FileEntry) : Nat :=
  (entries.filter fun e => e.is_deleted).length

/-- Model of `EXT4Parser::IsInodeDeleted` (ext4_parser.cpp:327-357): buffers shorter
than 0x18 bytes are not deleted; otherwise the record is deleted exactly when
the 32-bit `i_dtime` field at offset 0x14 is non-zero. -/
def ext4IsInodeDeleted (inode_data : List Nat) : Bool :=
  if inode_data.length < 0x18 then false
  else u32LE inode_data 0x14 != 0

/-- Model of `NTFSParser::IsFileDeleted` (ntfs_parser.cpp:254-281): buffers shorter than
0x24 bytes are not deleted; otherwise the record is deleted exactly when bit 0
(the in-use bit) of the 16-bit flags field at offset 0x22 is clear
(`(flags & 0x0001) == 0`). -/
def ntfsIsFileDeleted (record_data : List Nat) : Bool :=
  if record_data.length < 0x24 then false
  else (u16LE record_data 0x22) &&& 0x0001 == 0

/-- Model of `APFSParser::IsInodeDeleted` (apfs_parser.cpp:319-344): buffers shorter
than 8 bytes are not deleted; otherwise bit 0 of the 16-bit flags field at
offset 0x06 being set marks deletion. -/
def apfsIsInodeDeleted (inode_data : List Nat) : Bool :=
  if inode_data.length < 0x08 then false
  else (u16LE inode_data 0x06) &&& 0x0001 == 0x0001

/-- The fields of `EXT4Superblock` that the stub code path touches.
`blocks_per_group` is never assigned by the mock `ReadSuperblock`, so the
uninitialised value is threaded through as a parameter `bpg`. -/
structure EXT4Superblock where
  magic : Nat
  inodes_count : Nat
  blocks_count : Nat
  log_block_size : Nat
  inodes_per_group : Nat
  blocks_per_group : Nat
deriving DecidableEq, Repr

/-- Model of `EXT4Parser::ReadSuperblock` (ext4_parser.cpp:138-183): a placeholder that
never reads the device; it accepts exactly the paths containing "ext4", "sda"
or "nvme" and fills a mock superblock (magic 0xEF53, 1000 inodes, 262144
blocks, 4 KiB blocks, 128 inodes per group).  `bpg` is the indeterminate value
left in the unassigned `blocks_per_group` field. -/
def ext4ReadSuperblock (bpg : Nat) (device_path : String) :
    Option EXT4Superblock :=
  if strContains device_path "ext4" || strContains device_path "sda" ||
      strContains device_path "nvme" then
    some { magic := 0xEF53, inodes_count := 1000, blocks_count := 262144,
           log_block_size := 2, inodes_per_group := 128,
           blocks_per_group := bpg }
  else none

/-- The group count of `EXT4Parser::ParseGroupDescriptors`
(ext4_parser.cpp:208-209): `(blocks_count + blocks_per_group - 1) /
blocks_per_group` in `uint32_t` arithmetic. -/
def ext4NumGroups (sb : EXT4Superblock) : Nat :=
  ((sb.blocks_count + sb.blocks_per_group - 1) % U32MOD) / sb.blocks_per_group

/-- Model of `EXT4Parser::ParseGroupDescriptors` (ext4_parser.cpp:185-218): pushes
`min(num_groups, 10)` zeroed descriptors (their contents are never used by the
stub `ParseInodeTable`, so only the count is kept).  Division by a zero
`blocks_per_group` is undefined behaviour in the source, modelled as failure;
the theorems assume the indeterminate field is non-zero. -/
def ext4ParseGroupDescriptors (sb : EXT4Superblock) : Option Nat :=
  if sb.blocks_per_group = 0 then none
  else some (min (ext4NumGroups sb) 10)

/-- The fixed sample entry pushed by the stub `EXT4Parser::ParseInodeTable`
(ext4_parser.cpp:247-256). -/
def ext4SampleEntry : FileEntry :=
  { filename := "example_file.txt", file_size := 4096, creation_time := 0,
    modification_time := 0, is_directory := false, is_deleted := false }

/-- Model of `EXT4Parser::ParseInodeTable` (ext4_parser.cpp:220-260): the stub resets
both statistics counters to zero, appends the fixed sample entry to `entries`
regardless of the device contents, sets `total_recoverable_files_ = 1`, and
returns `true`.  The function never reads the inode table. -/
def ext4ParseInodeTable (entries : List FileEntry) (stats : Nat × Nat) :
    List FileEntry × (Nat × Nat) :=
  (entries ++ [ext4SampleEntry], (1, 0))

/-- The per-block-group loop of `EXT4Parser::Parse` (ext4_parser.cpp:116-121),
iterating `ParseInodeTable` over `g` group descriptors (errors would be skipped
with "Continue on error (partial recovery)", but the stub always succeeds). -/
def ext4ParseGroups (g : Nat) (entries : List FileEntry) (stats : Nat × Nat) :
    List FileEntry × (Nat × Nat) :=
  match g with
  | 0 => (entries, stats)
  | n + 1 =>
      let r := ext4ParseInodeTable entries stats
      ext4ParseGroups n r.1 r.2

/-- Model of `EXT4Parser::Parse` (ext4_parser.cpp:80-128) acting on the entries vector
and the parser's statistics counters (`journal_info_`, `last_parsed_device_`
and `is_initialized_` carry no information used by any claim and are elided).
`none` models a `false` return; the statistics pair afterwards is what
`EXT4Parser::GetRecoveryStats` (ext4_parser.cpp:130-132) reports. -/
def ext4Parse (bpg : Nat) (device_path : String) (entries : List FileEntry)
    (stats : Nat × Nat) : Option (List FileEntry × (Nat × Nat)) :=
  if device_path = "" then none
  else
    match ext4ReadSuperblock bpg device_path with
    | none => none
    | some sb =>
        match ext4ParseGroupDescriptors sb with
        | none => none
        | some g => some (ext4ParseGroups g entries stats)

/-- Model of `NTFSParser::ReadBootSector` (ntfs_parser.cpp:100-133): a placeholder that
never reads the device; it accepts exactly the paths containing "NTFS" or
"C:" (the boot-sector fields it fills are never used by the stub). -/
def ntfsReadBootSector (device_path : String) : Bool :=
  strContains device_path "NTFS" || strContains device_path "C:"

/-- The fixed sample entry pushed by the stub `NTFSParser::ParseMFT`
(ntfs_parser.cpp:169-178). -/
def ntfsSampleEntry : FileEntry :=
  { filename := "example_file.txt", file_size := 1024, creation_time := 0,
    modification_time := 0, is_directory := false, is_deleted := false }

/-- Model of `NTFSParser::ParseMFT` (ntfs_parser.cpp:135-182): the stub resets both
statistics counters, appends one fixed sample entry regardless of the MFT
contents, sets `total_recoverable_files_ = 1`, and returns `true`.  It keeps
no count of discarded records (no such member exists on `NTFSParser`). -/
def ntfsParseMFT (entries : List FileEntry) (stats : Nat × Nat) :
    List FileEntry × (Nat × Nat) :=
  (entries ++ [ntfsSampleEntry], (1, 0))

/-- Model of `NTFSParser::Parse` (ntfs_parser.cpp:62-94); the statistics pair afterwards
is what `NTFSParser::GetRecoveryStats` (ntfs_parser.cpp:96-98) reports. -/
def ntfsParse (device_path : String) (entries : List FileEntry)
    (stats : Nat × Nat) : Option (List FileEntry × (Nat × Nat)) :=
  if device_path = "" then none
  else if ntfsReadBootSector device_path then
    some (ntfsParseMFT entries stats)
  else none

/-- Model of `APFSParser::ReadContainerSuperblock` (apfs_parser.cpp:128-172): a
placeholder accepting exactly the paths containing "APFS" or "Data". -/
def apfsReadContainerSuperblock (device_path : String) : Bool :=
  strContains device_path "APFS" || strContains device_path "Data"

/-- The fixed sample entry pushed by the stub `APFSParser::ParseVolumeBTree`
(apfs_parser.cpp:246-256). -/
def apfsSampleEntry : FileEntry :=
  { filename := "example_document.txt", file_size := 2048, creation_time := 0,
    modification_time := 0, is_directory := false, is_deleted := false }

/-- Model of `APFSParser::Parse` (apfs_parser.cpp:76-118): the mock volume-superblock
step always succeeds and `ParseVolumeBTree` resets the counters, appends one
fixed sample entry and sets `total_recoverable_files_ = 1`. -/
def apfsParse (device_path : String) (entries : List FileEntry)
    (stats : Nat × Nat) : Option (List FileEntry × (Nat × Nat)) :=
  if device_path = "" then none
  else if apfsReadContainerSuperblock device_path then
    some (entries ++ [apfsSampleEntry], (1, 0))
  else none

/-- The state of a `DeviceIOAdapter` (device_io_adapter.cpp): the owned
`DeviceIO`, each parser's statistics counters, and the adapter's own
`last_total_files_` / `last_deleted_files_`. -/
structure AdapterState where
  dev : DeviceIOState
  ntfsStats : Nat × Nat
  apfsStats : Nat × Nat
  ext4Stats : Nat × Nat
  lastTotalFiles : Nat
  lastDeletedFiles : Nat
deriving DecidableEq, Repr

/-- Model of `DeviceIOAdapter::ParseDevice` (device_io_adapter.cpp:144-215): requires an
open device, re-runs detection, routes to the parser for the detected type
(FAT32/HFS+ hit the "Parser not implemented" branch), and on success recomputes
`last_total_files_` as the length of the entries vector and
`last_deleted_files_` as its deleted count.  `bpg` is the indeterminate
`blocks_per_group` of the ext4 mock superblock. -/
def adapterParseDevice (bpg : Nat) (a : AdapterState)
    (entries : List FileEntry) : Option (List FileEntry × AdapterState) :=
  if a.dev.isOpen = false then none
  else
    match detectFilesystem a.dev with
    | .UNKNOWN => none
    | .NTFS =>
        match ntfsParse a.dev.currentDevicePath entries a.ntfsStats with
        | none => none
        | some (es, stats) =>
            some (es, { a with ntfsStats := stats, lastTotalFiles := es.length,
                               lastDeletedFiles := countDeleted es })
    | .APFS =>
        match apfsParse a.dev.currentDevicePath entries a.apfsStats with
        | none => none
        | some (es, stats) =>
            some (es, { a with apfsStats := stats, lastTotalFiles := es.length,
                               lastDeletedFiles := countDeleted es })
    | .EXT4 =>
        match ext4Parse bpg a.dev.currentDevicePath entries a.ext4Stats with
        | none => none
        | some (es, stats) =>
            some (es, { a with ext4Stats := stats, lastTotalFiles := es.length,
                               lastDeletedFiles := countDeleted es })
    | _ => none

/-- Model of `DeviceIOAdapter::GetRecoveryStats` (device_io_adapter.cpp:217-223). -/
def adapterGetRecoveryStats (a : AdapterState) : Nat × Nat :=
  (a.lastTotalFiles, a.lastDeletedFiles)

/-! ### Concrete devices and images used by the theorems -/

/-- Byte generator of the 1 MiB synthetic image of the spec's example scenario:
all zero except the EXT magic value 0xEF53 stored little-endian at byte offset
1080. -/
def ext4ImageByte (i : Nat) : Nat :=
  if i = 1080 then 0x53 else if i = 1081 then 0xEF else 0

/-- The 1 MiB synthetic image itself. -/
def ext4Image : List Nat := (List.range 1048576).map ext4ImageByte

/-- The 1 MiB synthetic image opened as a device (at a disk-image path that
does not contain any of the ext4 mock markers "ext4", "sda", "nvme"). -/
def ext4ImageDev : DeviceIOState :=
  { isOpen := true, currentDevicePath := "/tmp/synthetic.img",
    content := ext4Image, detectedFs := .UNKNOWN }

/-- Byte generator of a 2048-byte image carrying both the APFS container magic
"NXSB" at offset 0 and the EXT magic 0xEF53 at offset 1080. -/
def dualSigByte (i : Nat) : Nat :=
  if i = 0 then 0x4E else if i = 1 then 0x58 else if i = 2 then 0x53
  else if i = 3 then 0x42 else if i = 1080 then 0x53
  else if i = 1081 then 0xEF else 0

/-- The dual-signature image itself. -/
def dualSigImage : List Nat := (List.range 2048).map dualSigByte

/-- The dual-signature image opened as a device. -/
def dualSigDev : DeviceIOState :=
  { isOpen := true, currentDevicePath := "/tmp/dual.img",
    content := dualSigImage, detectedFs := .UNKNOWN }

/-- A four-byte open device. -/
def fourZeroDev : DeviceIOState :=
  { isOpen := true, currentDevicePath := "/tmp/four.img",
    content := [0, 0, 0, 0], detectedFs := .UNKNOWN }

/-- A 512-byte open device. -/
def dev512 : DeviceIOState :=
  { isOpen := true, currentDevicePath := "/tmp/b512.img",
    content := List.replicate 512 0, detectedFs := .UNKNOWN }

/-- A one-byte open device. -/
def oneByteDev : DeviceIOState :=
  { isOpen := true, currentDevicePath := "/tmp/one.img",
    content := [0], detectedFs := .UNKNOWN }

/-- A zero-byte open device. -/
def emptyDev : DeviceIOState :=
  { isOpen := true, currentDevicePath := "/tmp/empty.img",
    content := [], detectedFs := .UNKNOWN }

/-- An open device whose `device_size_` field holds the largest representable
`uint64_t` value. -/
def maxSizeDev : DeviceIOState :=
  { isOpen := true, currentDevicePath := "/dev/huge",
    content := List.replicate (U64MOD - 1) 0, detectedFs := .UNKNOWN }

/-- A fresh, closed `DeviceIO` as the constructor leaves it. -/
def closedState : DeviceIOState :=
  { isOpen := false, currentDevicePath := "", content := [],
    detectedFs := .UNKNOWN }

/-- A two-device environment for the reopen scenario. -/
def env2 : String → Option (List Nat) := fun p =>
  if p = "/dev/sdb1" then some [0]
  else if p = "/dev/sdb2" then some [1, 2] else none

/-- The adapter's device for the ext4 statistics scenario: the synthetic EXT
image opened at a path that the ext4 mock superblock check accepts. -/
def adapterDev : DeviceIOState :=
  { isOpen := true, currentDevicePath := "/dev/sda1",
    content := ext4Image, detectedFs := .EXT4 }

/-- A fresh adapter owning `adapterDev`. -/
def adapter0 : AdapterState :=
  { dev := adapterDev, ntfsStats := (0, 0), apfsStats := (0, 0),
    ext4Stats := (0, 0), lastTotalFiles := 0, lastDeletedFiles := 0 }

/-! ### Helper lemmas -/

lemma byteAt_lt (l : List Nat) (i : Nat) : byteAt l i < 256 :=
  Nat.mod_lt _ (by norm_num)

lemma byteAt_drop_take (c : List Nat) (o l j : Nat) (hj : j < l) :
    byteAt ((c.drop o).take l) j = byteAt c (o + j) := by
  unfold byteAt
  rw [List.getD_eq_getElem?_getD, List.getD_eq_getElem?_getD,
    List.getElem?_take, if_pos hj, List.getElem?_drop]

lemma length_drop_take (c : List Nat) (o l : Nat) (h : o + l ≤ c.length) :
    ((c.drop o).take l).length = l := by
  rw [List.length_take, List.length_drop]
  omega

lemma byteAt_mapRange (f : Nat → Nat) (n i : Nat) :
    byteAt ((List.range n).map f) i = if i < n then f i % 256 else 0 := by
  unfold byteAt
  rw [List.getD_eq_getElem?_getD, List.getElem?_map]
  by_cases h : i < n
  · rw [if_pos h, List.getElem?_range h]
    rfl
  · rw [if_neg h]
    have : (List.range n)[i]? = none := by
      rw [List.getElem?_eq_none]
      simpa using Nat.le_of_not_lt h
    rw [this]
    rfl

lemma readBlockGuard_none (st : DeviceIOState) (o l : Nat)
    (hopen : st.isOpen = true) (hle : (o + l) % U64MOD ≤ st.deviceSize) :
    readBlockGuard st o l = none := by
  unfold readBlockGuard
  rw [hopen]
  simp [Nat.not_lt.mpr hle]

lemma readImplWith_ok (c : List Nat) (o s r : Nat) (hoff : o < OFFT_SIGN) :
    readImplWith c o s r = .ok (readImplBytes c o s r) := by
  unfold readImplWith
  rw [if_neg (Nat.not_le.mpr hoff)]

lemma readBlockVector_ok (st : DeviceIOState) (o l : Nat)
    (hopen : st.isOpen = true) (hle : (o + l) % U64MOD ≤ st.deviceSize)
    (hoff : o < OFFT_SIGN) :
    readBlockVector st o l = .ok ((st.content.drop o).take l) := by
  unfold readBlockVector readBlockVectorWith
  rw [readBlockGuard_none st o l hopen hle,
    readImplWith_ok st.content o l l hoff]
  simp [readImplBytes, List.take_take]

lemma readBlockVector_small_err (st : DeviceIOState) (o l : Nat)
    (hlt : st.deviceSize < (o + l) % U64MOD) :
    ∃ e, readBlockVector st o l = .error e := by
  unfold readBlockVector readBlockVectorWith readBlockGuard
  by_cases hopen : st.isOpen = false
  · rw [if_pos hopen]
    exact ⟨_, rfl⟩
  · rw [if_neg hopen, if_pos hlt]
    exact ⟨_, rfl⟩

lemma readBlockVector_ok_inv (st : DeviceIOState) (o l : Nat) (bs : List Nat)
    (h : readBlockVector st o l = .ok bs) :
    bs = (st.content.drop o).take l := by
  unfold readBlockVector readBlockVectorWith readBlockGuard at h
  by_cases h1 : st.isOpen = false
  · rw [if_pos h1] at h
    simp at h
  · rw [if_neg h1] at h
    by_cases h2 : (o + l) % U64MOD > st.deviceSize
    · rw [if_pos h2] at h
      simp at h
    · rw [if_neg h2] at h
      by_cases h3 : OFFT_SIGN ≤ o
      · rw [readImplWith, if_pos h3] at h
        simp at h
      · rw [readImplWith_ok st.content o l l (Nat.lt_of_not_le h3)] at h
        simp only [readImplBytes, List.take_take, min_self,
          Except.ok.injEq] at h
        exact h.symm

lemma detectNTFS_false_of_byte3 (st : DeviceIOState)
    (h3 : byteAt st.content 3 ≠ 0x4E) : detectNTFS st = false := by
  rcases hrv : readBlockVector st 0 512 with e | bs
  · unfold detectNTFS detectNTFSBody
    rw [hrv]
  · have hbs := readBlockVector_ok_inv st 0 512 bs hrv
    unfold detectNTFS detectNTFSBody
    rw [hrv]
    by_cases hlen : bs.length < 512
    · simp [hlen]
    · have hb : byteAt bs 3 = byteAt st.content 3 := by
        rw [hbs]
        simpa using byteAt_drop_take st.content 0 512 3 (by norm_num)
      simp [hlen, ntfsSignature, hb, h3]

lemma detectEXT4_true_of (st : DeviceIOState) (hopen : st.isOpen = true)
    (hsz : 1280 ≤ st.deviceSize) (h80 : byteAt st.content 1080 = 0x53)
    (h81 : byteAt st.content 1081 = 0xEF) : detectEXT4 st = true := by
  have hmod : (1024 + 256) % U64MOD = 1280 := by norm_num [U64MOD]
  have hok := readBlockVector_ok st 1024 256 hopen (by rw [hmod]; exact hsz)
    (by norm_num [OFFT_SIGN])
  unfold detectEXT4 detectEXT4Body
  rw [hok]
  have hlen : ((st.content.drop 1024).take 256).length = 256 :=
    length_drop_take st.content 1024 256 hsz
  have h56 : byteAt ((st.content.drop 1024).take 256) 56 = byteAt st.content 1080 := by
    simpa using byteAt_drop_take st.content 1024 256 56 (by norm_num)
  have h57 : byteAt ((st.content.drop 1024).take 256) 57 = byteAt st.content 1081 := by
    simpa using byteAt_drop_take st.content 1024 256 57 (by norm_num)
  simp only [hlen]
  norm_num [u16LE, h56, h57, h80, h81]

lemma detectFilesystem_ext4_of (st : DeviceIOState) (hopen : st.isOpen = true)
    (hsz : 1280 ≤ st.deviceSize) (h3 : byteAt st.content 3 ≠ 0x4E)
    (h80 : byteAt st.content 1080 = 0x53)
    (h81 : byteAt st.content 1081 = 0xEF) : detectFilesystem st = .EXT4 := by
  unfold detectFilesystem
  rw [detectNTFS_false_of_byte3 st h3,
    detectEXT4_true_of st hopen hsz h80 h81]
  rfl

lemma ext4Image_length : ext4Image.length = 1048576 := by
  simp [ext4Image]

lemma byteAt_ext4Image (i : Nat) (h : i < 1048576) :
    byteAt ext4Image i = ext4ImageByte i := by
  rw [ext4Image, byteAt_mapRange, if_pos h]
  unfold ext4ImageByte
  split_ifs <;> norm_num

lemma dualSigImage_length : dualSigImage.length = 2048 := by
  simp [dualSigImage]

lemma byteAt_dualSigImage (i : Nat) (h : i < 2048) :
    byteAt dualSigImage i = dualSigByte i := by
  rw [dualSigImage, byteAt_mapRange, if_pos h]
  unfold dualSigByte
  split_ifs <;> norm_num

lemma dualSigDev_content : dualSigDev.content = dualSigImage := by
  conv_lhs => rw [show dualSigDev =
    DeviceIOState.mk true "/tmp/dual.img" dualSigImage .UNKNOWN from rfl]

lemma dualSigDev_size : dualSigDev.deviceSize = 2048 := by
  show dualSigDev.content.length = 2048
  rw [dualSigDev_content, dualSigImage_length]

lemma ext4ImageDev_content : ext4ImageDev.content = ext4Image := by
  conv_lhs => rw [show ext4ImageDev =
    DeviceIOState.mk true "/tmp/synthetic.img" ext4Image .UNKNOWN from rfl]

lemma ext4ImageDev_size : ext4ImageDev.deviceSize = 1048576 := by
  show ext4ImageDev.content.length = 1048576
  rw [ext4ImageDev_content, ext4Image_length]

lemma adapterDev_content : adapterDev.content = ext4Image := by
  conv_lhs => rw [show adapterDev =
    DeviceIOState.mk true "/dev/sda1" ext4Image .EXT4 from rfl]

lemma adapterDev_size : adapterDev.deviceSize = 1048576 := by
  show adapterDev.content.length = 1048576
  rw [adapterDev_content, ext4Image_length]

lemma adapterDev_isOpen : adapterDev.isOpen = true := by
  conv_lhs => rw [show adapterDev =
    DeviceIOState.mk true "/dev/sda1" ext4Image .EXT4 from rfl]

lemma adapterDev_path : adapterDev.currentDevicePath = "/dev/sda1" := by
  conv_lhs => rw [show adapterDev =
    DeviceIOState.mk true "/dev/sda1" ext4Image .EXT4 from rfl]

lemma adapter0_dev : adapter0.dev = adapterDev := by
  conv_lhs => rw [show adapter0 =
    AdapterState.mk adapterDev (0, 0) (0, 0) (0, 0) 0 0 from rfl]

lemma adapter0_ext4Stats : adapter0.ext4Stats = (0, 0) := by
  conv_lhs => rw [show adapter0 =
    AdapterState.mk adapterDev (0, 0) (0, 0) (0, 0) 0 0 from rfl]

lemma ext4ParseGroups_succ (n : Nat) (entries : List FileEntry)
    (stats : Nat × Nat) :
    ext4ParseGroups (n + 1) entries stats =
      (entries ++ List.replicate (n + 1) ext4SampleEntry, (1, 0)) := by
  induction n generalizing entries stats with
  | zero =>
      show ext4ParseGroups 0 (entries ++ [ext4SampleEntry]) (1, 0) = _
      rfl
  | succ m ih =>
      show ext4ParseGroups (m + 1) (entries ++ [ext4SampleEntry]) (1, 0) = _
      rw [ih]
      simp [List.replicate_succ, List.append_assoc]

lemma countDeleted_replicate (n : Nat) (e : FileEntry)
    (he : e.is_deleted = false) :
    countDeleted (List.replicate n e) = 0 := by
  unfold countDeleted
  rw [List.filter_replicate]
  simp [he]

/-! ### Claim theorems -/

/-- C4, counterexample: the claim "a device carrying the APFS container magic
at offset 0 together with an EXT magic at offset 1080 is detected as APFS-like"
is false at a concrete input: the 2048-byte dual-signature image carries
"NXSB" at offset 0 and 0xEF53 at offset 1080, yet `DetectFilesystem` returns
EXT4, because the EXT probe runs before the APFS probe
(device_io.cpp:113-122). -/
theorem C4_counterexample :
    u32LE dualSigDev.content 0 = 0x4253584E ∧
    byteAt dualSigDev.content 1080 = 0x53 ∧
    byteAt dualSigDev.content 1081 = 0xEF ∧
    detectFilesystem dualSigDev = .EXT4 ∧
    detectFilesystem dualSigDev ≠ .APFS := by
  have h0 : byteAt dualSigImage 0 = 0x4E := by
    rw [byteAt_dualSigImage 0 (by norm_num)]
    rfl
  have h1 : byteAt dualSigImage 1 = 0x58 := by
    rw [byteAt_dualSigImage 1 (by norm_num)]
    rfl
  have h2 : byteAt dualSigImage 2 = 0x53 := by
    rw [byteAt_dualSigImage 2 (by norm_num)]
    rfl
  have h3 : byteAt dualSigImage 3 = 0x42 := by
    rw [byteAt_dualSigImage 3 (by norm_num)]
    rfl
  have h80 : byteAt dualSigImage 1080 = 0x53 := by
    rw [byteAt_dualSigImage 1080 (by norm_num)]
    rfl
  have h81 : byteAt dualSigImage 1081 = 0xEF := by
    rw [byteAt_dualSigImage 1081 (by norm_num)]
    rfl
  have hdet : detectFilesystem dualSigDev = .EXT4 := by
    apply detectFilesystem_ext4_of dualSigDev rfl
    · rw [dualSigDev_size]
      norm_num
    · rw [dualSigDev_content, h3]
      norm_num
    · rw [dualSigDev_content]
      exact h80
    · rw [dualSigDev_content]
      exact h81
  refine ⟨?_, ?_, ?_, hdet, by rw [hdet]; intro hc; cases hc⟩
  · rw [dualSigDev_content]
    norm_num [u32LE, h0, h1, h2, h3]
  · rw [dualSigDev_content]
    exact h80
  · rw [dualSigDev_content]
    exact h81

/-- C4, amended: the NTFS-specific and EXT-specific probes run before the APFS
probe, so a device (of at least 1280 bytes) carrying both the APFS container
magic at offset 0 and the EXT magic at offset 1080 is detected as EXT-like,
not APFS-like; moreover the APFS container magic makes the NTFS probe
unsatisfiable, since the two signatures overlap at byte 3. -/
theorem C4_probe_order (st : DeviceIOState) (hopen : st.isOpen = true)
    (hsz : 1280 ≤ st.deviceSize)
    (hapfs : u32LE st.content 0 = 0x4253584E)
    (h80 : byteAt st.content 1080 = 0x53)
    (h81 : byteAt st.content 1081 = 0xEF) :
    detectNTFS st = false ∧ detectEXT4 st = true ∧
    detectFilesystem st = .EXT4 := by
  have h3 : byteAt st.content 3 = 0x42 := by
    have b1 := byteAt_lt st.content 0
    have b2 := byteAt_lt st.content 1
    have b3 := byteAt_lt st.content 2
    have b4 := byteAt_lt st.content 3
    norm_num [u32LE] at hapfs
    omega
  have h3ne : byteAt st.content 3 ≠ 0x4E := by
    rw [h3]
    norm_num
  exact ⟨detectNTFS_false_of_byte3 st h3ne,
    detectEXT4_true_of st hopen hsz h80 h81,
    detectFilesystem_ext4_of st hopen hsz h3ne h80 h81⟩

/-- C4, witness: the amended theorem evaluated on the concrete dual-signature
device. -/
theorem C4_probe_order_witness :
    detectNTFS dualSigDev = false ∧ detectEXT4 dualSigDev = true ∧
    detectFilesystem dualSigDev = .EXT4 :=
  C4_probe_order dualSigDev rfl
    (by rw [dualSigDev_size]
        norm_num)
    (by rw [dualSigDev_content]
        have e0 := byteAt_dualSigImage 0 (by norm_num)
        have e1 := byteAt_dualSigImage 1 (by norm_num)
        have e2 := byteAt_dualSigImage 2 (by norm_num)
        have e3 := byteAt_dualSigImage 3 (by norm_num)
        unfold dualSigByte at e0 e1 e2 e3
        norm_num at e0 e1 e2 e3
        norm_num [u32LE, e0, e1, e2, e3])
    (by rw [dualSigDev_content, byteAt_dualSigImage 1080 (by norm_num)]
        rfl)
    (by rw [dualSigDev_content, byteAt_dualSigImage 1081 (by norm_num)]
        rfl)

/-- C9: detection is total and degrades gracefully.  Every probe whose `try`
body throws reports "no match" for that probe only (`catch (...)` returns
`false`); a device smaller than the EXT probe's range makes only the EXT probe
fail; and when every probe reports no match, `DetectFilesystem` returns
`UNKNOWN` rather than aborting.  Each probe and `DetectFilesystem` itself are
total functions of the device state, so no exception escapes `Detect`. -/
theorem C9_detection_degrades (st : DeviceIOState) :
    (∀ e, detectNTFSBody st = .error e → detectNTFS st = false) ∧
    (∀ e, detectEXT4Body st = .error e → detectEXT4 st = false) ∧
    (∀ e, detectAPFSBody st = .error e → detectAPFS st = false) ∧
    (∀ e, detectFAT32Body st = .error e → detectFAT32 st = false) ∧
    (∀ e, detectHFSPlusBody st = .error e → detectHFSPlus st = false) ∧
    (st.deviceSize < 1280 → detectEXT4 st = false) ∧
    (detectNTFS st = false → detectEXT4 st = false → detectAPFS st = false →
      detectFAT32 st = false → detectHFSPlus st = false →
      detectFilesystem st = .UNKNOWN) := by
  refine ⟨?_, ?_, ?_, ?_, ?_, ?_, ?_⟩
  · intro e he
    unfold detectNTFS
    rw [he]
  · intro e he
    unfold detectEXT4
    rw [he]
  · intro e he
    unfold detectAPFS
    rw [he]
  · intro e he
    unfold detectFAT32
    rw [he]
  · intro e he
    unfold detectHFSPlus
    rw [he]
  · intro hsz
    have hlt : st.deviceSize < (1024 + 256) % U64MOD := by
      have : (1024 + 256) % U64MOD = 1280 := by norm_num [U64MOD]
      rw [this]
      exact hsz
    obtain ⟨e, he⟩ := readBlockVector_small_err st 1024 256 hlt
    unfold detectEXT4 detectEXT4Body
    rw [he]
  · intro h1 h2 h3 h4 h5
    simp [detectFilesystem, h1, h2, h3, h4, h5]

/-- C9, witness: the theorem evaluated on an open zero-byte device, where each
probe's read throws and detection returns `UNKNOWN`. -/
theorem C9_detection_degrades_witness :
    detectEXT4 emptyDev = false ∧ detectFilesystem emptyDev = .UNKNOWN := by
  have h := C9_detection_degrades emptyDev
  refine ⟨h.2.2.2.2.2.1 (by norm_num [emptyDev, DeviceIOState.deviceSize]), ?_⟩
  exact h.2.2.2.2.2.2 (h.1 .readBeyondDevice rfl) (h.2.1 .readBeyondDevice rfl)
    (h.2.2.1 .readBeyondDevice rfl) (h.2.2.2.1 .readBeyondDevice rfl)
    (h.2.2.2.2.1 .readBeyondDevice rfl)

/-- The state after opening the one-byte device at "/dev/sdb1". -/
def openedA : DeviceIOState :=
  { isOpen := true, currentDevicePath := "/dev/sdb1", content := [0],
    detectedFs := .UNKNOWN }

/-- The state after opening the two-byte device at "/dev/sdb2". -/
def openedB : DeviceIOState :=
  { isOpen := true, currentDevicePath := "/dev/sdb2", content := [1, 2],
    detectedFs := .UNKNOWN }

/-- C8, counterexample: the claim "a second call to Open without Close fails
with the AlreadyOpen error and leaves the existing session unchanged" is false
at a concrete input: after opening "/dev/sdb1", a second `Open` of "/dev/sdb2"
succeeds (returns `true`, no exception) and the handle now refers to
"/dev/sdb2" — `DeviceIO::Open` closes any previously opened device first
(device_io.cpp:56-58) and no AlreadyOpen error exists. -/
theorem C8_counterexample :
    deviceOpen env2 closedState "/dev/sdb1" = (openedA, .ok true) ∧
    openedA.isOpen = true ∧
    deviceOpen env2 openedA "/dev/sdb2" = (openedB, .ok true) ∧
    openedB.currentDevicePath = "/dev/sdb2" := by
  refine ⟨?_, rfl, ?_, rfl⟩ <;> rfl

/-- C8, amended: a second `Open` without `Close` does not fail with
AlreadyOpen: it first closes the currently open handle and then opens the
requested path, so the previous session is replaced and at most one device is
open per `DeviceIO` instance at any time. -/
theorem C8_reopen_replaces (env : String → Option (List Nat))
    (st : DeviceIOState) (path : String) (bytes : List Nat)
    (hopen : st.isOpen = true) (henv : env path = some bytes) :
    (deviceOpen env st path).2 = .ok true ∧
    (deviceOpen env st path).1.isOpen = true ∧
    (deviceOpen env st path).1.currentDevicePath = path ∧
    (deviceOpen env st path).1.content = bytes := by
  unfold deviceOpen deviceClose
  simp [hopen, henv]

/-- C8, witness: the amended theorem evaluated on the opened "/dev/sdb1"
session and the path "/dev/sdb2". -/
theorem C8_reopen_replaces_witness :
    (deviceOpen env2 openedA "/dev/sdb2").2 = .ok true ∧
    (deviceOpen env2 openedA "/dev/sdb2").1.isOpen = true ∧
    (deviceOpen env2 openedA "/dev/sdb2").1.currentDevicePath = "/dev/sdb2" ∧
    (deviceOpen env2 openedA "/dev/sdb2").1.content = [1, 2] :=
  C8_reopen_replaces env2 openedA "/dev/sdb2" [1, 2] rfl rfl

/-- C2, counterexample: the claim "for all offset `o` and length `l`, if
`o + l > s` then `ReadBlock` fails with the out-of-range error" is false at the
concrete input `o = 2`, `l = 2^64 - 1` on an open four-byte device: the
`uint64_t` sum wraps to 1, the bounds check passes, the platform seek to
offset 2 is a valid non-negative `off_t` and succeeds, and the platform read
transfers the 2 bytes available up to end-of-device (the kernel caps the huge
request count; only 2 bytes are there), so `ReadBlock` returns 2 bytes
instead of throwing. -/
theorem C2_counterexample :
    fourZeroDev.deviceSize < 2 + (U64MOD - 1) ∧
    readBlock fourZeroDev 2 (U64MOD - 1) = .ok 2 := by
  constructor
  · norm_num [fourZeroDev, DeviceIOState.deviceSize, U64MOD]
  · have hmod : (2 + (U64MOD - 1)) % U64MOD = 1 := by norm_num [U64MOD]
    have hg : readBlockGuard fourZeroDev 2 (U64MOD - 1) = none := by
      apply readBlockGuard_none _ _ _ rfl
      rw [hmod]
      norm_num [fourZeroDev, DeviceIOState.deviceSize]
    have htk : ([0, 0] : List Nat).take (U64MOD - 1) = [0, 0] :=
      List.take_of_length_le (by norm_num [U64MOD])
    have hbytes : readImplBytes fourZeroDev.content 2 (U64MOD - 1)
        (U64MOD - 1) = [0, 0] := by
      show ((([0, 0, 0, 0] : List Nat).drop 2).take (U64MOD - 1)).take
        (U64MOD - 1) = _
      rw [show ([0, 0, 0, 0] : List Nat).drop 2 = [0, 0] from rfl, htk, htk]
    unfold readBlock readBlockWith
    rw [hg, readImplWith_ok fourZeroDev.content 2 (U64MOD - 1) (U64MOD - 1)
      (by norm_num [OFFT_SIGN]), hbytes]
    rfl

/-- C2, amended: for every open device smaller than `2^63` bytes (every
physically possible device, which makes every in-bounds offset a valid
non-negative seek target) and all offsets and lengths whose true sum does not
overflow `uint64_t`: `ReadBlock` throws the out-of-range exception when
`o + l` exceeds the device size, and returns exactly `l` bytes when `o + l`
is within it (the platform read being complete). -/
theorem C2_no_overflow_bounds (st : DeviceIOState) (o l : Nat)
    (hopen : st.isOpen = true) (hno : o + l < U64MOD)
    (hdev : st.deviceSize < OFFT_SIGN) :
    (st.deviceSize < o + l → readBlock st o l = .error .readBeyondDevice) ∧
    (o + l ≤ st.deviceSize →
      readBlock st o l = .ok l ∧
      readBlockVector st o l = .ok ((st.content.drop o).take l) ∧
      ((st.content.drop o).take l).length = l) := by
  have hmod : (o + l) % U64MOD = o + l := Nat.mod_eq_of_lt hno
  constructor
  · intro hgt
    unfold readBlock readBlockWith readBlockGuard
    rw [hopen, hmod]
    simp [hgt]
  · intro hle
    have hg : readBlockGuard st o l = none :=
      readBlockGuard_none st o l hopen (by rw [hmod]; exact hle)
    have hoff : o < OFFT_SIGN :=
      Nat.lt_of_le_of_lt (Nat.le_trans (Nat.le_add_right o l) hle) hdev
    have hlen : ((st.content.drop o).take l).length = l :=
      length_drop_take st.content o l hle
    refine ⟨?_, ?_, hlen⟩
    · unfold readBlock readBlockWith
      rw [hg, readImplWith_ok st.content o l l hoff]
      simp [readImplBytes, List.take_take, hlen]
    · unfold readBlockVector readBlockVectorWith
      rw [hg, readImplWith_ok st.content o l l hoff]
      simp [readImplBytes, List.take_take]

/-- C2, witness: the amended theorem evaluated on the four-byte device at
`o = 1`, `l = 2`. -/
theorem C2_no_overflow_bounds_witness :
    (fourZeroDev.deviceSize < 1 + 2 →
      readBlock fourZeroDev 1 2 = .error .readBeyondDevice) ∧
    (1 + 2 ≤ fourZeroDev.deviceSize →
      readBlock fourZeroDev 1 2 = .ok 2 ∧
      readBlockVector fourZeroDev 1 2 =
        .ok ((fourZeroDev.content.drop 1).take 2) ∧
      ((fourZeroDev.content.drop 1).take 2).length = 2) :=
  C2_no_overflow_bounds fourZeroDev 1 2 rfl (by norm_num [U64MOD])
    (by norm_num [fourZeroDev, DeviceIOState.deviceSize, OFFT_SIGN])

/-- C7, counterexample: the claim "a read where the platform returns fewer
bytes than requested without an OS error fails with a ShortRead error, and a
successful vector read never returns fewer bytes than requested" is false at a
concrete input: on an open 512-byte device with the platform `read` returning
100 of the 512 requested bytes, `ReadBlock` succeeds with 100 and
`ReadBlockVector` silently resizes its result to 100 bytes. -/
theorem C7_counterexample :
    (100 : Nat) < 512 ∧ readBlockWith dev512 0 512 100 = .ok 100 ∧
    readBlockVectorWith dev512 0 512 100 = .ok (List.replicate 100 0) := by
  have hg : readBlockGuard dev512 0 512 = none := by
    apply readBlockGuard_none _ _ _ rfl
    norm_num [U64MOD, dev512, DeviceIOState.deviceSize]
  have hbytes : readImplBytes dev512.content 0 512 100 = List.replicate 100 0 := by
    show (((List.replicate 512 (0 : Nat)).drop 0).take 512).take 100 = _
    rw [List.drop_zero, List.take_replicate, min_self, List.take_replicate,
      min_eq_left (by norm_num : (100 : Nat) ≤ 512)]
  refine ⟨by norm_num, ?_, ?_⟩
  · unfold readBlockWith
    rw [hg, readImplWith_ok dev512.content 0 512 100 (by norm_num [OFFT_SIGN]),
      hbytes]
    rfl
  · unfold readBlockVectorWith
    rw [hg, readImplWith_ok dev512.content 0 512 100 (by norm_num [OFFT_SIGN]),
      hbytes]

/-- C7, amended: a short platform read is not surfaced as an error: whenever
the guards pass, the offset is a valid non-negative seek target (below
`2^63`, as every in-bounds offset on a physical device is) and the platform
returns `k ≤ l` available bytes, `ReadBlock` returns `k` unchanged and
`ReadBlockVector` resizes its buffer to those `k` bytes; no ShortRead error
exists in the code. -/
theorem C7_short_read_truncation (st : DeviceIOState) (o l k : Nat)
    (hopen : st.isOpen = true) (hoff : o < OFFT_SIGN) (hk : k ≤ l)
    (hav : o + k ≤ st.deviceSize)
    (hguard : (o + l) % U64MOD ≤ st.deviceSize) :
    readBlockWith st o l k = .ok k ∧
    readBlockVectorWith st o l k = .ok ((st.content.drop o).take k) ∧
    ((st.content.drop o).take k).length = k := by
  have hg := readBlockGuard_none st o l hopen hguard
  have himpl := readImplWith_ok st.content o l k hoff
  have htk : ((st.content.drop o).take l).take k = (st.content.drop o).take k := by
    rw [List.take_take, min_eq_left hk]
  have hlen : ((st.content.drop o).take k).length = k :=
    length_drop_take st.content o k hav
  refine ⟨?_, ?_, hlen⟩
  · unfold readBlockWith
    rw [hg, himpl]
    simp [readImplBytes, htk, hlen]
  · unfold readBlockVectorWith
    rw [hg, himpl]
    simp [readImplBytes, htk]

/-- C7, witness: the amended theorem evaluated on the 512-byte device with the
platform returning 7 of 512 requested bytes. -/
theorem C7_short_read_truncation_witness :
    readBlockWith dev512 0 512 7 = .ok 7 ∧
    readBlockVectorWith dev512 0 512 7 =
      .ok ((dev512.content.drop 0).take 7) ∧
    ((dev512.content.drop 0).take 7).length = 7 :=
  C7_short_read_truncation dev512 0 512 7 rfl (by norm_num [OFFT_SIGN])
    (by norm_num)
    (by norm_num [dev512, DeviceIOState.deviceSize])
    (by norm_num [U64MOD, dev512, DeviceIOState.deviceSize])

/-- C10, counterexample: the claim quantifies over every open device of size
`s ≥ 1`, but at the concrete size `s = 2^64 - 1` (the largest representable
`uint64_t`) no `uint64_t` offset exceeds `s`, so the claimed pair of offset and
size does not exist there. -/
theorem C10_counterexample :
    maxSizeDev.deviceSize = U64MOD - 1 ∧
    ¬ ∃ o l : Nat, o < U64MOD ∧ l < U64MOD ∧ maxSizeDev.deviceSize < o ∧
        1 ≤ l ∧ (o + l) % U64MOD ≤ maxSizeDev.deviceSize ∧
        readBlockGuard maxSizeDev o l = none := by
  have hlen : maxSizeDev.deviceSize = U64MOD - 1 := by
    simp [maxSizeDev, DeviceIOState.deviceSize]
  refine ⟨hlen, ?_⟩
  rintro ⟨o, l, ho, -, hgt, -, -, -⟩
  rw [hlen] at hgt
  unfold U64MOD at ho hgt
  omega

/-- When the ReadBlock guards pass, the call is handed to the platform read
and its outcome is returned unchanged (byte count on success, the platform
exception otherwise). -/
lemma readBlock_forwards (st : DeviceIOState) (o l : Nat)
    (hg : readBlockGuard st o l = none) :
    readBlock st o l =
      Except.map List.length (readImplWith st.content o l l) := by
  unfold readBlock readBlockWith
  rw [hg]
  cases readImplWith st.content o l l <;> rfl

/-- C10, amended: the bounds check computes `offset + size` in 64-bit
wrap-around arithmetic, so for every open device of size `s` with
`1 ≤ s ≤ 2^64 - 2` there exist an offset greater than `s` (namely `s + 1`)
and a size of at least 1 whose sum wraps modulo `2^64` to a value at most
`s`; for them `ReadBlock` raises no out-of-range error and forwards the
out-of-bounds offset to the platform read, returning that call's outcome
unchanged.  When moreover `s + 1 < 2^63` (every physically possible device)
the forwarded offset is a valid seek target, the platform read past
end-of-device succeeds with 0 bytes, and `ReadBlock` returns 0. -/
theorem C10_wraparound (st : DeviceIOState) (hopen : st.isOpen = true)
    (h1 : 1 ≤ st.deviceSize) (h2 : st.deviceSize ≤ U64MOD - 2) :
    ∃ o l : Nat, o < U64MOD ∧ l < U64MOD ∧ st.deviceSize < o ∧ 1 ≤ l ∧
      st.deviceSize < o + l ∧ (o + l) % U64MOD ≤ st.deviceSize ∧
      readBlockGuard st o l = none ∧
      readBlock st o l =
        Except.map List.length (readImplWith st.content o l l) ∧
      (st.deviceSize + 1 < OFFT_SIGN →
        readImplWith st.content o l l = .ok [] ∧
        readBlock st o l = .ok 0) := by
  have hsz : st.content.length = st.deviceSize := rfl
  have hmod : (st.deviceSize + 1 + (U64MOD - 1)) % U64MOD = st.deviceSize := by
    unfold U64MOD at h2 ⊢
    omega
  have hg : readBlockGuard st (st.deviceSize + 1) (U64MOD - 1) = none := by
    apply readBlockGuard_none st _ _ hopen
    rw [hmod]
  refine ⟨st.deviceSize + 1, U64MOD - 1, ?_, ?_, ?_, ?_, ?_, ?_, hg,
    readBlock_forwards st _ _ hg, ?_⟩
  · unfold U64MOD at h2 ⊢
    omega
  · unfold U64MOD
    omega
  · omega
  · unfold U64MOD
    omega
  · unfold U64MOD
    omega
  · rw [hmod]
  · intro hlt
    have hdrop : st.content.drop (st.deviceSize + 1) = [] :=
      List.drop_eq_nil_of_le (by omega)
    have himpl : readImplWith st.content (st.deviceSize + 1) (U64MOD - 1)
        (U64MOD - 1) = .ok [] := by
      rw [readImplWith_ok st.content _ _ _ hlt]
      unfold readImplBytes
      rw [hdrop, List.take_nil, List.take_nil]
    refine ⟨himpl, ?_⟩
    rw [readBlock_forwards st _ _ hg, himpl]
    rfl

/-- C10, witness: the amended theorem evaluated on an open one-byte device,
where the chosen out-of-bounds offset is a valid seek target and the platform
read returns 0 bytes. -/
theorem C10_wraparound_witness :
    ∃ o l : Nat, o < U64MOD ∧ l < U64MOD ∧ oneByteDev.deviceSize < o ∧
      1 ≤ l ∧ oneByteDev.deviceSize < o + l ∧
      (o + l) % U64MOD ≤ oneByteDev.deviceSize ∧
      readBlockGuard oneByteDev o l = none ∧
      readBlock oneByteDev o l =
        Except.map List.length (readImplWith oneByteDev.content o l l) ∧
      (oneByteDev.deviceSize + 1 < OFFT_SIGN →
        readImplWith oneByteDev.content o l l = .ok [] ∧
        readBlock oneByteDev o l = .ok 0) :=
  C10_wraparound oneByteDev rfl
    (by norm_num [oneByteDev, DeviceIOState.deviceSize])
    (by norm_num [oneByteDev, DeviceIOState.deviceSize, U64MOD])

/-- C5: the per-format deletion predicates.  For every buffer of at least 0x18
bytes the EXT-like predicate classifies the record as deleted exactly when the
32-bit deletion-timestamp field at offset 0x14 is non-zero (some of its four
bytes is non-zero); for every buffer of at least 0x24 bytes the NTFS-like
predicate classifies the record as deleted exactly when bit 0 (the in-use bit)
of the 16-bit little-endian flags field at offset 0x22 is clear; shorter
buffers are classified as not deleted by both. -/
theorem C5_deletion_predicates (buf recd : List Nat) :
    (0x18 ≤ buf.length →
      (ext4IsInodeDeleted buf = true ↔
        ¬(byteAt buf 0x14 = 0 ∧ byteAt buf 0x15 = 0 ∧
          byteAt buf 0x16 = 0 ∧ byteAt buf 0x17 = 0))) ∧
    (buf.length < 0x18 → ext4IsInodeDeleted buf = false) ∧
    (0x24 ≤ recd.length →
      (ntfsIsFileDeleted recd = true ↔ byteAt recd 0x22 % 2 = 0)) ∧
    (recd.length < 0x24 → ntfsIsFileDeleted recd = false) := by
  refine ⟨?_, ?_, ?_, ?_⟩
  · intro h
    unfold ext4IsInodeDeleted
    rw [if_neg (by omega)]
    simp only [bne_iff_ne]
    norm_num [u32LE]
  · intro h
    unfold ext4IsInodeDeleted
    rw [if_pos h]
  · intro h
    unfold ntfsIsFileDeleted
    rw [if_neg (by omega)]
    simp only [Nat.and_one_is_mod, beq_iff_eq]
    norm_num [u16LE]
    omega
  · intro h
    unfold ntfsIsFileDeleted
    rw [if_pos h]

/-- C5, witness: the predicates evaluated on a 0x18-byte EXT record whose
deletion timestamp is 7 and a 0x24-byte NTFS record whose flags word is 0
(in-use bit clear). -/
theorem C5_deletion_predicates_witness :
    (ext4IsInodeDeleted (List.replicate 20 0 ++ [7, 0, 0, 0]) = true ↔
      ¬(byteAt (List.replicate 20 0 ++ [7, 0, 0, 0]) 0x14 = 0 ∧
        byteAt (List.replicate 20 0 ++ [7, 0, 0, 0]) 0x15 = 0 ∧
        byteAt (List.replicate 20 0 ++ [7, 0, 0, 0]) 0x16 = 0 ∧
        byteAt (List.replicate 20 0 ++ [7, 0, 0, 0]) 0x17 = 0)) ∧
    (ntfsIsFileDeleted (List.replicate 36 0) = true ↔
      byteAt (List.replicate 36 0) 0x22 % 2 = 0) :=
  ⟨(C5_deletion_predicates (List.replicate 20 0 ++ [7, 0, 0, 0])
      (List.replicate 36 0)).1 (by decide),
   (C5_deletion_predicates (List.replicate 20 0 ++ [7, 0, 0, 0])
      (List.replicate 36 0)).2.2.1 (by decide)⟩

/-- C3: evaluating the code at the failing input.  For an NTFS device whose
MFT holds n = 3 records of which the second carries a corrupted per-record
magic, the claim expects the parse to emit the 2 valid records and to make a
discarded-record count retrievable as 1.  The stub `NTFSParser::ParseMFT`
never reads the device (it takes only the path), emits exactly one fixed
sample entry whatever the MFT contains, reports statistics (1, 0), and
`NTFSParser` has no discarded-record member at all.  The second conjunct shows
this for every starting entries vector and counter state: the output is fixed,
so it cannot reflect the n - 1 valid records or count the discarded one. -/
theorem C3_ntfs_stub_fixed_output :
    ntfsParse "C:" [] (0, 0) = some ([ntfsSampleEntry], (1, 0)) ∧
    ∀ (entries : List FileEntry) (stats : Nat × Nat),
      ntfsParse "C:" entries stats =
        some (entries ++ [ntfsSampleEntry], (1, 0)) := by
  have hall : ∀ (entries : List FileEntry) (stats : Nat × Nat),
      ntfsParse "C:" entries stats =
        some (entries ++ [ntfsSampleEntry], (1, 0)) := by
    intro entries stats
    unfold ntfsParse ntfsReadBootSector ntfsParseMFT
    rw [if_neg (by decide : ¬("C:" = "")),
      if_pos (by decide :
        (strContains "C:" "NTFS" || strContains "C:" "C:") = true)]
  exact ⟨by simpa using hall [] (0, 0), hall⟩

/-- C3, witness: the same evaluation starting from a non-empty entries vector
and non-zero statistics counters: the counters are reset to (1, 0) and exactly
the one fixed sample entry is appended, whatever state the parser held
before. -/
theorem C3_ntfs_stub_fixed_output_witness :
    ntfsParse "C:" [ntfsSampleEntry] (5, 7) =
      some ([ntfsSampleEntry, ntfsSampleEntry], (1, 0)) := by
  simpa using C3_ntfs_stub_fixed_output.2 [ntfsSampleEntry] (5, 7)

/-- C6: evaluating the code on the spec's example scenario.  The 1 MiB
all-zero image with the EXT magic 0xEF53 at offset 1080 is detected as
EXT-like, as the claim states; but the subsequent parse does not succeed with
`total_found == 0`: `EXT4Parser::ReadSuperblock` never reads the device and
rejects any path not containing "ext4", "sda" or "nvme", so
`EXT4Parser::Parse` returns `false` for the image, whatever the indeterminate
`blocks_per_group` value `bpg`, the entries vector and the statistics
counters. -/
theorem C6_detected_but_parse_rejects :
    detectFilesystem ext4ImageDev = .EXT4 ∧
    ∀ bpg : Nat, ∀ entries : List FileEntry, ∀ stats : Nat × Nat,
      ext4Parse bpg ext4ImageDev.currentDevicePath entries stats = none := by
  constructor
  · apply detectFilesystem_ext4_of ext4ImageDev rfl
    · rw [ext4ImageDev_size]
      norm_num
    · rw [ext4ImageDev_content, byteAt_ext4Image 3 (by norm_num)]
      norm_num [ext4ImageByte]
    · rw [ext4ImageDev_content, byteAt_ext4Image 1080 (by norm_num)]
      rfl
    · rw [ext4ImageDev_content, byteAt_ext4Image 1081 (by norm_num)]
      rfl
  · intro bpg entries stats
    have hpath : ext4ImageDev.currentDevicePath = "/tmp/synthetic.img" := by
      conv_lhs => rw [show ext4ImageDev =
        DeviceIOState.mk true "/tmp/synthetic.img" ext4Image .UNKNOWN from rfl]
    rw [hpath]
    unfold ext4Parse
    rw [if_neg (by decide : ¬("/tmp/synthetic.img" = ""))]
    have hsb : ext4ReadSuperblock bpg "/tmp/synthetic.img" = none := by
      unfold ext4ReadSuperblock
      rw [if_neg (by decide :
        ¬((strContains "/tmp/synthetic.img" "ext4" ||
           strContains "/tmp/synthetic.img" "sda" ||
           strContains "/tmp/synthetic.img" "nvme") = true))]
    rw [hsb]

/-- C6, witness: the evaluation at the concrete indeterminate value
`bpg = 5`. -/
theorem C6_detected_but_parse_rejects_witness :
    detectFilesystem ext4ImageDev = .EXT4 ∧
    ext4Parse 5 ext4ImageDev.currentDevicePath [] (0, 0) = none :=
  ⟨C6_detected_but_parse_rejects.1, C6_detected_but_parse_rejects.2 5 [] (0, 0)⟩

/-- C1: evaluating the code at the failing input.  For an ext4 device at
"/dev/sda1" whose inode table holds n = 3 valid records of which d = 1 is
deletion-marked, the claim expects the parser's and the adapter's recovery
statistics to be (3, 1).  The stub pipeline never reads the table: for every
non-zero indeterminate `blocks_per_group` value `bpg` (at most `blocks_count`,
so that the `uint32_t` group arithmetic does not wrap),
`EXT4Parser::GetRecoveryStats` afterwards reports exactly (1, 0) — the last
`ParseInodeTable` call reset the counters — while the adapter reports
(es.length, 0) over the fabricated sample entries `es`, none of which is
deletion-marked.  Neither pair can equal (3, 1). -/
theorem C1_stub_statistics (bpg : Nat) (h1 : 1 ≤ bpg) (h2 : bpg ≤ 262144) :
    ∃ es a2, adapterParseDevice bpg adapter0 [] = some (es, a2) ∧
      a2.ext4Stats = (1, 0) ∧
      countDeleted es = 0 ∧
      adapterGetRecoveryStats a2 = (es.length, 0) ∧
      1 ≤ es.length ∧
      a2.ext4Stats ≠ (3, 1) ∧ adapterGetRecoveryStats a2 ≠ (3, 1) := by
  have hdet : detectFilesystem adapterDev = .EXT4 := by
    apply detectFilesystem_ext4_of adapterDev rfl
    · rw [adapterDev_size]
      norm_num
    · rw [adapterDev_content, byteAt_ext4Image 3 (by norm_num)]
      norm_num [ext4ImageByte]
    · rw [adapterDev_content, byteAt_ext4Image 1080 (by norm_num)]
      rfl
    · rw [adapterDev_content, byteAt_ext4Image 1081 (by norm_num)]
      rfl
  obtain ⟨k, hk⟩ : ∃ k, min ((262144 + bpg - 1) / bpg) 10 = k + 1 := by
    have hge : 1 ≤ (262144 + bpg - 1) / bpg :=
      (Nat.le_div_iff_mul_le (by omega)).mpr (by omega)
    exact ⟨min ((262144 + bpg - 1) / bpg) 10 - 1, by omega⟩
  have hsb : ext4ReadSuperblock bpg "/dev/sda1" = some
      { magic := 0xEF53, inodes_count := 1000, blocks_count := 262144,
        log_block_size := 2, inodes_per_group := 128,
        blocks_per_group := bpg } := by
    unfold ext4ReadSuperblock
    rw [if_pos (by decide :
      (strContains "/dev/sda1" "ext4" || strContains "/dev/sda1" "sda" ||
       strContains "/dev/sda1" "nvme") = true)]
  have hdesc : ext4ParseGroupDescriptors
      { magic := 0xEF53, inodes_count := 1000, blocks_count := 262144,
        log_block_size := 2, inodes_per_group := 128,
        blocks_per_group := bpg } = some (k + 1) := by
    have h0 : ¬(bpg = 0) := by omega
    have hmod : (262144 + bpg - 1) % U32MOD = 262144 + bpg - 1 :=
      Nat.mod_eq_of_lt (by unfold U32MOD; omega)
    simp only [ext4ParseGroupDescriptors, ext4NumGroups]
    rw [if_neg h0, hmod, hk]
  have hparse : ext4Parse bpg "/dev/sda1" [] (0, 0) =
      some (List.replicate (k + 1) ext4SampleEntry, (1, 0)) := by
    have hne : ¬("/dev/sda1" = "") := by decide
    simp only [ext4Parse, hsb, hdesc, if_neg hne]
    rw [ext4ParseGroups_succ]
    simp
  have hcd : countDeleted (List.replicate (k + 1) ext4SampleEntry) = 0 :=
    countDeleted_replicate (k + 1) ext4SampleEntry rfl
  have hroute : ext4Parse bpg adapterDev.currentDevicePath [] adapter0.ext4Stats =
      some (List.replicate (k + 1) ext4SampleEntry, (1, 0)) := by
    rw [adapterDev_path, adapter0_ext4Stats]
    exact hparse
  have hmain : adapterParseDevice bpg adapter0 [] =
      some (List.replicate (k + 1) ext4SampleEntry,
        { adapter0 with
          ext4Stats := (1, 0)
          lastTotalFiles := (List.replicate (k + 1) ext4SampleEntry).length
          lastDeletedFiles :=
            countDeleted (List.replicate (k + 1) ext4SampleEntry) }) := by
    simp only [adapterParseDevice, adapter0_dev, adapterDev_isOpen, hdet,
      hroute]
    simp
  refine ⟨_, _, hmain, rfl, hcd, ?_, ?_, ?_, ?_⟩
  · show (_, _) = (_, _)
    rw [hcd]
  · rw [List.length_replicate]
    omega
  · intro hc
    cases hc
  · show ((List.replicate (k + 1) ext4SampleEntry).length,
      countDeleted (List.replicate (k + 1) ext4SampleEntry)) ≠ (3, 1)
    rw [hcd]
    intro hc
    exact absurd (congrArg Prod.snd hc) (by norm_num)

/-- C1, witness: the evaluation at the concrete indeterminate value
`bpg = 32768` (8 block groups parsed). -/
theorem C1_stub_statistics_witness :
    ∃ es a2, adapterParseDevice 32768 adapter0 [] = some (es, a2) ∧
      a2.ext4Stats = (1, 0) ∧
      countDeleted es = 0 ∧
      adapterGetRecoveryStats a2 = (es.length, 0) ∧
      1 ≤ es.length ∧
      a2.ext4Stats ≠ (3, 1) ∧ adapterGetRecoveryStats a2 ≠ (3, 1) :=
  C1_stub_statistics 32768 (by norm_num) (by norm_num)

end RSN
